import Mathlib

/-!
Verification of the cross-source similarity clustering and story
prioritization engine of the news-ai repository.

Python strings are modelled as `List Char` (ASCII character model),
Python floats as exact rationals `ℚ`, Python ints as `Int`.
Published dates are represented by their parsed epoch seconds
(`Option Int`); `none` stands for an unparseable/absent date, which is
exactly the information `dateutil` parsing feeds into the scoring code
(`calculate_time_similarity` and the prioritizer treat a parse failure
as "no date").  Python's `list.sort` / `sorted` (Timsort) is modelled
by a stable insertion sort: Python documents its sort as stable, and
stability plus the key comparison uniquely determine the output.
-/

namespace NewsAI

/-- Python strings, modelled as lists of characters. -/
abbrev PyStr := List Char

/-- Characters treated as whitespace by `str.split()` and the `\s` class. -/
def isSpaceChar (c : Char) : Bool :=
  c = ' ' || c = '\t' || c = '\n' || c = '\r' || c = '\x0b' || c = '\x0c'

/-- Characters matched by the regex class `\w` (ASCII model). -/
def isWordChar (c : Char) : Bool :=
  c.isAlphanum || c = '_'

/-- Whether `c` is an ASCII upper-case letter. -/
def isUpperAscii (c : Char) : Bool :=
  65 ≤ c.toNat && c.toNat ≤ 90

/-- Model of `str.lower` on a single character (ASCII model). -/
def pyToLower (c : Char) : Char :=
  if h : 65 ≤ c.toNat ∧ c.toNat ≤ 90 then
    Char.ofNatAux (c.toNat + 32) (by unfold Nat.isValidChar; omega)
  else c

/-- Model of Python `str.lower()`. -/
def pyLower (s : PyStr) : PyStr := s.map pyToLower

/-- One character of `re.sub(r"[^\w\s']", ' ', ·)`: punctuation other than
apostrophes becomes a space. -/
def stripPunctChar (c : Char) : Char :=
  if isWordChar c || isSpaceChar c || c = '\'' then c else ' '

/-- Model of `re.sub(r"[^\w\s']", ' ', s)`. -/
def stripPunct (s : PyStr) : PyStr := s.map stripPunctChar

/-- Accumulator-based splitter behind `splitWs`; `acc` holds the current
word reversed. -/
def splitWsAux : List Char → List Char → List PyStr
  | [], acc => if acc.isEmpty then [] else [acc.reverse]
  | c :: cs, acc =>
    if isSpaceChar c then
      if acc.isEmpty then splitWsAux cs [] else acc.reverse :: splitWsAux cs []
    else splitWsAux cs (c :: acc)

/-- Model of Python `str.split()` with no argument: split on whitespace
runs, dropping empty tokens. -/
def splitWs (s : PyStr) : List PyStr := splitWsAux s []

/-- Model of `' '.join(ws)`. -/
def joinWords : List PyStr → PyStr
  | [] => []
  | [w] => w
  | w :: ws => w ++ ' ' :: joinWords ws

/-- The general stop words of `text_utils.STOP_WORDS`. -/
def STOP_WORDS : List PyStr :=
  ["the", "a", "an", "and", "or", "but", "in", "on", "at", "to", "for", "of", "with",
   "by", "from", "up", "about", "into", "through", "during", "before", "after",
   "above", "below", "between", "among", "under", "over", "until",
   "is", "are", "was", "were", "be", "been", "being", "have", "has", "had",
   "do", "does", "did", "will", "would", "could", "should", "may", "might",
   "can", "must", "shall", "this", "that", "these", "those", "i", "you", "he",
   "she", "it", "we", "they", "me", "him", "her", "us", "them", "my", "your",
   "his", "its", "our", "their", "says", "said", "new", "news"].map String.toList

/-- The Australian news stop words of `text_utils.AUS_NEWS_WORDS`. -/
def AUS_NEWS_WORDS : List PyStr :=
  ["australia", "australian", "aus", "sydney", "melbourne", "brisbane",
   "perth", "adelaide", "darwin", "canberra", "nsw", "vic", "qld", "wa",
   "sa", "nt", "act", "tas", "breaking", "live", "update", "latest"].map String.toList

/-- `text_utils.ALL_STOP_WORDS = STOP_WORDS | AUS_NEWS_WORDS`. -/
def ALL_STOP_WORDS : List PyStr := STOP_WORDS ++ AUS_NEWS_WORDS

/-- The word filter of `clean_title`: not a stop word and longer than 2. -/
def meaningfulWord (w : PyStr) : Bool :=
  !ALL_STOP_WORDS.contains w && 2 < w.length

/-- Model of `text_utils.clean_title`. -/
def clean_title (title : PyStr) : PyStr :=
  if title.isEmpty then []
  else
    let t1 := pyLower title
    let t2 := stripPunct t1
    let t3 := joinWords (splitWs t2)
    let words := splitWs t3
    let meaningful := words.filter meaningfulWord
    joinWords meaningful

/-- First-occurrence-preserving deduplication; models the insertion order
of a Python `dict` / the identity of a Python `set` built by iteration. -/
def dedupF {α : Type} [DecidableEq α] : List α → List α
  | [] => []
  | a :: l => a :: dedupF (l.filter (fun x => x ≠ a))
termination_by l => l.length
decreasing_by simpa using Nat.lt_succ_of_le (List.length_filter_le _ _)

/-- Stable insertion: place `x` before the first element `y` with
`before x y`; used to model Python's stable `sorted`. -/
def stableInsert {α : Type} (before : α → α → Bool) (x : α) : List α → List α
  | [] => [x]
  | y :: ys => if before x y then x :: y :: ys else y :: stableInsert before x ys

/-- Stable sort by repeated insertion, processing the input left to right.
Models Python's `sorted`/`list.sort`, which is documented to be stable. -/
def stableSort {α : Type} (before : α → α → Bool) (l : List α) : List α :=
  l.foldl (fun acc x => stableInsert before x acc) []

/-- Model of `sorted(l, key=key, reverse=True)`: stable descending sort. -/
def sortByKeyDesc {α : Type} {β : Type} [LinearOrder β] (key : α → β) (l : List α) : List α :=
  stableSort (fun x y => decide (key y < key x)) l

/-- Model of `sorted(l)` for a list of ordered values. -/
def sortAsc {α : Type} [LinearOrder α] (l : List α) : List α :=
  stableSort (fun x y => decide (x < y)) l

/-- Model of Python `str.isdigit()` (ASCII model): nonempty and all digits. -/
def isPyDigit (w : PyStr) : Bool :=
  !w.isEmpty && w.all Char.isDigit

/-- The tokenizer shared by `extract_keywords`: lowercase, strip
punctuation, collapse whitespace, split into words. -/
def tokenizeWords (text : PyStr) : List PyStr :=
  splitWs (joinWords (splitWs (stripPunct (pyLower text))))

/-- The keyword filter of `extract_keywords`: long enough, not a stop
word, not a bare number. -/
def keywordPred (min_length : Nat) (w : PyStr) : Bool :=
  min_length ≤ w.length && !ALL_STOP_WORDS.contains w && !isPyDigit w

/-- The distinct surviving keywords of `extract_keywords`, in
first-occurrence order (the `keywords` set of the source). -/
def survivingKeywords (min_length : Nat) (text : PyStr) : List PyStr :=
  dedupF ((tokenizeWords text).filter (keywordPred min_length))

/-- Model of `text_utils.extract_keywords`.  The returned Python set is
represented by a duplicate-free list. -/
def extract_keywords (text : PyStr) (min_length max_words : Nat) : List PyStr :=
  if text.isEmpty then []
  else
    let words := tokenizeWords text
    let keywords := survivingKeywords min_length text
    if max_words < keywords.length then
      let word_freq := keywords.map (fun w => (w, words.count w))
      let sorted_words := sortByKeyDesc (fun p => p.2) word_freq
      (sorted_words.take max_words).map Prod.fst
    else keywords

/-!
Embedding of `difflib.SequenceMatcher` with `isjunk=None` (as used by
`calculate_title_similarity`).  With no junk predicate `bjunk` is empty,
so the two junk-extension loops of `find_longest_match` never run and
`isbjunk(...)` is `False` in the two non-junk extension loops; the
autojunk purge of popular elements applies only when `len(b) >= 200`.
-/

/-- The `b2j` position list of one character: ascending indices of `c`
in `b`, emptied by the autojunk purge when `b` is long and `c` popular. -/
def b2jPositions (b : List Char) (c : Char) : List Nat :=
  let pos := ((b.enum).filter (fun p => p.2 = c)).map Prod.fst
  if 200 ≤ b.length ∧ b.length / 100 + 1 < pos.length then [] else pos

/-- State of the inner loop of `find_longest_match`: the new `j2len`
association list together with the current `(besti, bestj, bestsize)`. -/
def flmInner (i : Nat) (j2len : List (Nat × Nat)) (js : List Nat)
    (st : List (Nat × Nat) × Nat × Nat × Nat) : List (Nat × Nat) × Nat × Nat × Nat :=
  js.foldl
    (fun st j =>
      let k := (if j = 0 then 0 else (j2len.lookup (j - 1)).getD 0) + 1
      let best := st.2
      let best := if best.2.2 < k then (i + 1 - k, j + 1 - k, k) else best
      ((j, k) :: st.1, best))
    st

/-- The main double loop of `find_longest_match` over rows
`i ∈ [alo, ahi)`, threading `j2len` and the best block. -/
def flmMain (a b : List Char) (alo ahi blo bhi : Nat) : Nat × Nat × Nat :=
  let rows := List.range' alo (ahi - alo)
  let final := rows.foldl
    (fun (st : List (Nat × Nat) × Nat × Nat × Nat) i =>
      let js := (b2jPositions b (a.getD i ' ')).filter (fun j => blo ≤ j ∧ j < bhi)
      let st' := flmInner i st.1 js ([], st.2)
      st')
    ([], (alo, blo, 0))
  final.2

/-- The first (non-junk) extension loop of `find_longest_match`,
growing the block downwards; `fuel` bounds the iteration count. -/
def flmExtendLo (a b : List Char) (alo blo : Nat) :
    Nat → Nat × Nat × Nat → Nat × Nat × Nat
  | 0, st => st
  | fuel + 1, (bi, bj, bs) =>
    if alo < bi ∧ blo < bj ∧ a.getD (bi - 1) ' ' = b.getD (bj - 1) ' ' then
      flmExtendLo a b alo blo fuel (bi - 1, bj - 1, bs + 1)
    else (bi, bj, bs)

/-- The second (non-junk) extension loop of `find_longest_match`,
growing the block upwards. -/
def flmExtendHi (a b : List Char) (ahi bhi : Nat) :
    Nat → Nat × Nat × Nat → Nat × Nat × Nat
  | 0, st => st
  | fuel + 1, (bi, bj, bs) =>
    if bi + bs < ahi ∧ bj + bs < bhi ∧ a.getD (bi + bs) ' ' = b.getD (bj + bs) ' ' then
      flmExtendHi a b ahi bhi fuel (bi, bj, bs + 1)
    else (bi, bj, bs)

/-- Model of `SequenceMatcher.find_longest_match` on the window
`a[alo:ahi]`, `b[blo:bhi]` (no junk). -/
def find_longest_match (a b : List Char) (alo ahi blo bhi : Nat) : Nat × Nat × Nat :=
  let st := flmMain a b alo ahi blo bhi
  let st := flmExtendLo a b alo blo st.1 st
  flmExtendHi a b ahi bhi (ahi - (st.1 + st.2.2)) st

/-- Total size of all matching blocks (the recursion implemented with a
queue in `get_matching_blocks`); `fuel` bounds the recursion depth and
`a.length + b.length + 1` always suffices. -/
def matchTotal (a b : List Char) : Nat → Nat × Nat × Nat × Nat → Nat
  | 0, _ => 0
  | fuel + 1, (alo, ahi, blo, bhi) =>
    let m := find_longest_match a b alo ahi blo bhi
    if m.2.2 = 0 then 0
    else
      matchTotal a b fuel (alo, m.1, blo, m.2.1) + m.2.2 +
        matchTotal a b fuel (m.1 + m.2.2, ahi, m.2.1 + m.2.2, bhi)

/-- Model of `SequenceMatcher(None, a, b).ratio()`. -/
def seqRatio (a b : List Char) : ℚ :=
  let m := matchTotal a b (a.length + b.length + 1) (0, a.length, 0, b.length)
  if a.length + b.length = 0 then 1
  else 2 * (m : ℚ) / ((a.length : ℚ) + (b.length : ℚ))

/-!
Data model (`news_model.NewsArticle`, `similarity_models`) and the
similarity detector (`similarity_detector.SimilarityDetector`).
-/

/-- Model of `NewsArticle` (augmented with the `id` attribute that the
similarity service attaches before comparison). -/
structure NewsArticle where
  id : Int
  title : PyStr
  url : PyStr
  category : PyStr
  summary : PyStr
  published_date : Option Int
  author : PyStr
  content : PyStr
  source : PyStr
  tags : List PyStr
  extracted_at : PyStr
deriving DecidableEq, Repr

/-- Model of `similarity_models.SimilarityResult`. -/
structure SimilarityResult where
  article_id_1 : Int
  article_id_2 : Int
  similarity_score : ℚ
  title_similarity : ℚ
  keyword_similarity : ℚ
  time_similarity : ℚ
  method_used : PyStr
  explanation : PyStr
deriving DecidableEq, Repr

/-- The `is_similar` property of `SimilarityResult` (fixed 0.7 threshold). -/
def SimilarityResult.is_similar (r : SimilarityResult) : Bool :=
  (7 : ℚ) / 10 ≤ r.similarity_score

/-- Model of `text_utils.calculate_time_similarity`, over parsed dates
(epoch seconds); `none` is an unparseable date and forces 0.0. -/
def calculate_time_similarity (date1 date2 : Option Int) : ℚ :=
  match date1, date2 with
  | some d1, some d2 =>
    let time_diff : ℚ := |(d1 : ℚ) - (d2 : ℚ)| / 3600
    if time_diff ≤ 6 then 1
    else if time_diff ≤ 24 then 4/5
    else if time_diff ≤ 48 then 1/2
    else if time_diff ≤ 168 then 1/5
    else 0
  | _, _ => 0

/-- The configuration state of a `SimilarityDetector` instance. -/
structure SimilarityDetector where
  similarity_threshold : ℚ
  title_weight : ℚ
  keyword_weight : ℚ
  time_weight : ℚ
deriving DecidableEq, Repr

/-- Model of `SimilarityDetector.__init__`: weights whose sum differs
from 1.0 by more than 0.01 are renormalized (with a logged warning). -/
def mkSimilarityDetector (similarity_threshold title_weight keyword_weight time_weight : ℚ) :
    SimilarityDetector :=
  let total_weight := title_weight + keyword_weight + time_weight
  if 1/100 < |total_weight - 1| then
    { similarity_threshold := similarity_threshold
      title_weight := title_weight / total_weight
      keyword_weight := keyword_weight / total_weight
      time_weight := time_weight / total_weight }
  else
    { similarity_threshold := similarity_threshold
      title_weight := title_weight
      keyword_weight := keyword_weight
      time_weight := time_weight }

/-- The detector built by `SimilarityDetector()` with its default
arguments. -/
def defaultDetector : SimilarityDetector :=
  mkSimilarityDetector (7/10) (3/5) (1/4) (3/20)

/-- Model of `SimilarityDetector.calculate_title_similarity`. -/
def calculate_title_similarity (title1 title2 : PyStr) : ℚ :=
  if title1.isEmpty || title2.isEmpty then 0
  else
    let clean1 := clean_title title1
    let clean2 := clean_title title2
    if clean1.isEmpty || clean2.isEmpty then 0
    else
      let similarity := seqRatio clean1 clean2
      let words1 := dedupF (splitWs clean1)
      let words2 := dedupF (splitWs clean2)
      if 0 < words1.length ∧ 0 < words2.length then
        let overlap := (words1.filter (fun w => words2.contains w)).length
        let max_words := max words1.length words2.length
        let word_overlap_bonus := ((overlap : ℚ) / (max_words : ℚ)) * (2/10)
        min 1 (similarity + word_overlap_bonus)
      else similarity

/-- Model of `SimilarityDetector.calculate_keyword_similarity`.  The
keyword sets are represented by the duplicate-free lists returned by
`extract_keywords`. -/
def calculate_keyword_similarity (article1 article2 : NewsArticle) : ℚ :=
  let text1 := article1.title ++ ' ' :: article1.summary ++ ' ' :: joinWords article1.tags
  let text2 := article2.title ++ ' ' :: article2.summary ++ ' ' :: joinWords article2.tags
  let keywords1 := extract_keywords text1 3 20
  let keywords2 := extract_keywords text2 3 20
  if keywords1.isEmpty || keywords2.isEmpty then 0
  else
    let intersection := (keywords1.filter (fun w => keywords2.contains w)).length
    let union := (dedupF (keywords1 ++ keywords2)).length
    let jaccard_similarity := if 0 < union then (intersection : ℚ) / (union : ℚ) else 0
    let category_bonus := if article1.category = article2.category then (1 : ℚ)/10 else 0
    min 1 (jaccard_similarity + category_bonus)

/-- Model of `SimilarityDetector._generate_explanation`. -/
def generate_explanation (title_sim keyword_sim time_sim overall_sim : ℚ) : PyStr :=
  let explanations : List PyStr :=
    (if 8/10 < title_sim then [("very similar headlines").toList]
     else if 6/10 < title_sim then [("similar headlines").toList]
     else if 4/10 < title_sim then [("somewhat similar headlines").toList]
     else []) ++
    (if 7/10 < keyword_sim then [("high keyword overlap").toList]
     else if 4/10 < keyword_sim then [("moderate keyword overlap").toList]
     else []) ++
    (if 8/10 < time_sim then [("published around the same time").toList]
     else if 4/10 < time_sim then [("published within a similar timeframe").toList]
     else [])
  let explanations :=
    if explanations.isEmpty then [("low overall similarity").toList] else explanations
  let base_explanation := (explanations.intersperse (", ").toList).flatten
  if 8/10 < overall_sim then ("High similarity due to ").toList ++ base_explanation
  else if 6/10 < overall_sim then ("Moderate similarity due to ").toList ++ base_explanation
  else ("Low similarity based on ").toList ++ base_explanation

/-- Model of `SimilarityDetector.calculate_overall_similarity`. -/
def calculate_overall_similarity (det : SimilarityDetector)
    (article1 article2 : NewsArticle) : SimilarityResult :=
  let title_sim := calculate_title_similarity article1.title article2.title
  let keyword_sim := calculate_keyword_similarity article1 article2
  let time_sim := calculate_time_similarity article1.published_date article2.published_date
  let overall_similarity :=
    title_sim * det.title_weight + keyword_sim * det.keyword_weight +
      time_sim * det.time_weight
  { article_id_1 := article1.id
    article_id_2 := article2.id
    similarity_score := overall_similarity
    title_similarity := title_sim
    keyword_similarity := keyword_sim
    time_similarity := time_sim
    method_used := ("hybrid_weighted").toList
    explanation := generate_explanation title_sim keyword_sim time_sim overall_similarity }

/-- Model of `SimilarityDetector.batch_similarity_detection`: compare
each pair `i < j`, skip same-source pairs, keep scores at or above the
threshold. -/
def batch_similarity_detection (det : SimilarityDetector)
    (articles : List NewsArticle) : List SimilarityResult :=
  (articles.enum).flatMap (fun p =>
    ((articles.drop (p.1 + 1)).filter (fun article2 => p.2.source ≠ article2.source)).filterMap
      (fun article2 =>
        let similarity := calculate_overall_similarity det p.2 article2
        if det.similarity_threshold ≤ similarity.similarity_score then some similarity
        else none))

/-!
The cluster builder (`SimilarityService._create_article_clusters`).
The database lookup `_get_article_by_id` is modelled by an explicit
`lookup` map, and `int(time.time())` / `datetime.now()` by a `now`
parameter.
-/

/-- Model of `similarity_models.ArticleCluster`; `created_at` is an
epoch timestamp. -/
structure ArticleCluster where
  cluster_id : PyStr
  main_article_id : Int
  similar_articles : List Int
  cluster_score : ℚ
  created_at : Int
  summary : PyStr
  sources_covered : List PyStr
deriving DecidableEq, Repr

/-- All article ids held by a cluster: the main article plus the
`similar_articles` list. -/
def ArticleCluster.memberIds (c : ArticleCluster) : List Int :=
  c.main_article_id :: c.similar_articles

/-- One step of the loop body of `_create_article_clusters`. -/
def clusterStep (lookup : Int → Option NewsArticle) (now : Int)
    (st : List ArticleCluster × List Int) (similarity : SimilarityResult) :
    List ArticleCluster × List Int :=
  let (clusters, processed) := st
  if similarity.article_id_1 ∈ processed ∨ similarity.article_id_2 ∈ processed then st
  else
    match lookup similarity.article_id_1, lookup similarity.article_id_2 with
    | some main_article, some similar_article =>
      let cluster : ArticleCluster :=
        { cluster_id := ("cluster_").toList ++ (Nat.repr (clusters.length + 1)).toList ++
            ('_' :: (Int.repr now).toList)
          main_article_id := similarity.article_id_1
          similar_articles := [similarity.article_id_2]
          cluster_score := similarity.similarity_score
          created_at := now
          summary := ("Similar coverage of: ").toList ++ main_article.title.take 50 ++
            ("...").toList
          sources_covered := [main_article.source, similar_article.source] }
      (clusters ++ [cluster],
       processed ++ [similarity.article_id_1, similarity.article_id_2])
    | _, _ => st

/-- Model of `SimilarityService._create_article_clusters`. -/
def create_article_clusters (lookup : Int → Option NewsArticle) (now : Int)
    (similarities : List SimilarityResult) : List ArticleCluster :=
  (similarities.foldl (clusterStep lookup now) ([], [])).1

/-!
The story prioritization engine
(`story_prioritizer.StoryPrioritizationEngine` and
`prioritization_models`).  Clusters arrive as Python dicts; `.get`
accesses with defaults are modelled by `Option` fields plus `getD`.
Article dicts always carry their text fields (they are produced by
`_article_to_dict`), so only `published_date` (a parse that can fail)
and the optional `classification_confidence` keep `Option`/default
treatment.  `datetime.min`/`datetime.max` are the epoch values of
0001-01-01T00:00:00 and 9999-12-31T23:59:59.
-/

/-- An article dictionary as consumed by the prioritizer. -/
structure ArticleDict where
  title : PyStr
  summary : PyStr
  content : PyStr
  source : PyStr
  category : PyStr
  published_date : Option Int
  classification_confidence : ℚ
deriving DecidableEq, Repr

/-- A cluster dictionary as consumed by `prioritize_stories`; `none`
models a missing key. -/
structure ClusterDict where
  cluster_id : Option PyStr
  main_article_id : Option Int
  similar_articles : List ArticleDict
  cluster_score : Option ℚ
deriving DecidableEq, Repr

/-- Epoch seconds of Python's `datetime.min`. -/
def dtMin : Int := -62135596800

/-- Epoch seconds of Python's `datetime.max` (whole seconds). -/
def dtMax : Int := 253402300799

/-- Model of `prioritization_models.PrioritizationConfig` after
construction. -/
structure PrioritizationConfig where
  breaking_news_weight : ℚ
  coverage_weight : ℚ
  quality_weight : ℚ
  breaking_time_threshold_hours : ℚ
  high_velocity_threshold_minutes : ℚ
  max_sources : Nat
  min_similarity_threshold : ℚ
  min_content_length : Nat
  max_content_length : Nat
  min_classification_confidence : ℚ
  urgency_keywords : List PyStr
deriving DecidableEq, Repr

/-- The default urgency keyword list installed by `__post_init__`
(`'record'` appears twice in the source list). -/
def defaultUrgencyKeywords : List PyStr :=
  ["breaking", "urgent", "emergency", "alert", "crisis",
   "developing", "live", "now", "just in", "update",
   "crash", "plunge", "surge", "record", "emergency rate",
   "market shock", "trading halt",
   "injury", "suspended", "banned", "controversy", "shock",
   "upset", "record", "winner", "champion",
   "announces", "confirms", "reveals", "admits", "denies",
   "resigns", "appointed", "arrested", "charged"].map String.toList

/-- Model of constructing `PrioritizationConfig(breaking, coverage,
quality, urgency_keywords=kw)` with the remaining fields left at their
dataclass defaults: `__post_init__` fills the keyword default and
raises `ValueError` when the three weights do not sum to 1.0 within
0.01, without renormalizing. -/
def mkPrioritizationConfig (breaking_news_weight coverage_weight quality_weight : ℚ)
    (kw : Option (List PyStr)) : Except PyStr PrioritizationConfig :=
  let urgency_keywords := kw.getD defaultUrgencyKeywords
  let total_weight := breaking_news_weight + coverage_weight + quality_weight
  if 1/100 < |total_weight - 1| then
    .error (("Prioritization weights must sum to 1.0").toList)
  else
    .ok { breaking_news_weight := breaking_news_weight
          coverage_weight := coverage_weight
          quality_weight := quality_weight
          breaking_time_threshold_hours := 2
          high_velocity_threshold_minutes := 30
          max_sources := 4
          min_similarity_threshold := 6/10
          min_content_length := 200
          max_content_length := 2000
          min_classification_confidence := 1/2
          urgency_keywords := urgency_keywords }

/-- Model of the Python substring test `needle in haystack`. -/
def isSubstring (needle haystack : PyStr) : Bool :=
  decide (List.IsInfix needle haystack)

/-- Model of `StoryMetrics`. -/
structure StoryMetrics where
  breaking_news_score : ℚ
  coverage_score : ℚ
  quality_score : ℚ
  overall_priority_score : ℚ
  time_urgency : ℚ
  source_velocity : ℚ
  urgency_keywords_found : List PyStr
  source_count : Nat
  similarity_confidence : ℚ
  geographic_scope : PyStr
  content_depth_score : ℚ
  classification_confidence : ℚ
deriving DecidableEq, Repr

/-- The `priority_level` property of `StoryMetrics`. -/
def StoryMetrics.priority_level (m : StoryMetrics) : PyStr :=
  if 8/10 ≤ m.overall_priority_score then ("BREAKING").toList
  else if 6/10 ≤ m.overall_priority_score then ("HIGH").toList
  else if 4/10 ≤ m.overall_priority_score then ("MEDIUM").toList
  else ("LOW").toList

/-- Model of `PrioritizedStory` (presentation fields included).
`representative_article` is `none` when the cluster has no articles
(the source's empty dict). -/
structure PrioritizedStory where
  story_id : PyStr
  main_article_id : Int
  title : PyStr
  summary : PyStr
  category : PyStr
  sources : List PyStr
  article_count : Nat
  latest_published : Int
  first_published : Int
  metrics : StoryMetrics
  similar_articles : List ArticleDict
  representative_article : Option ArticleDict
deriving DecidableEq, Repr

/-- Model of `_get_latest_publish_time` (`now` stands for
`datetime.now()`). -/
def get_latest_publish_time (now : Int) (cluster : ClusterDict) : Int :=
  if cluster.similar_articles.isEmpty then now
  else
    let latest := cluster.similar_articles.foldl
      (fun latest a =>
        match a.published_date with
        | some d => if latest < d then d else latest
        | none => latest)
      dtMin
    if latest = dtMin then now else latest

/-- Model of `_get_earliest_publish_time`. -/
def get_earliest_publish_time (now : Int) (cluster : ClusterDict) : Int :=
  if cluster.similar_articles.isEmpty then now
  else
    let earliest := cluster.similar_articles.foldl
      (fun earliest a =>
        match a.published_date with
        | some d => if d < earliest then d else earliest
        | none => earliest)
      dtMax
    if earliest = dtMax then now else earliest

/-- Model of `_get_all_publish_times`: the parseable dates, sorted. -/
def get_all_publish_times (cluster : ClusterDict) : List Int :=
  sortAsc (cluster.similar_articles.filterMap (fun a => a.published_date))

/-- Model of `_calculate_time_urgency`. -/
def calculate_time_urgency (now latest_time : Int) : ℚ :=
  let hours_ago : ℚ := ((now : ℚ) - (latest_time : ℚ)) / 3600
  if hours_ago ≤ 1/2 then 1
  else if hours_ago ≤ 1 then 9/10
  else if hours_ago ≤ 2 then 8/10
  else if hours_ago ≤ 6 then 6/10
  else if hours_ago ≤ 24 then 3/10
  else 1/10

/-- Model of `_calculate_source_velocity`. -/
def calculate_source_velocity (config : PrioritizationConfig) (publish_times : List Int) : ℚ :=
  if publish_times.length < 2 then 1/2
  else
    let earliest := publish_times.headD 0
    let latest := publish_times.getLastD 0
    let time_span_minutes : ℚ := ((latest : ℚ) - (earliest : ℚ)) / 60
    if time_span_minutes ≤ config.high_velocity_threshold_minutes then 1
    else if time_span_minutes ≤ 60 then 8/10
    else if time_span_minutes ≤ 180 then 6/10
    else if time_span_minutes ≤ 360 then 4/10
    else 1/5

/-- Model of `_detect_urgency_keywords`: the distinct configured
keywords occurring in some member's lower-cased title+summary, and the
+0.1/+0.2/+0.3 bonus. -/
def detect_urgency_keywords (config : PrioritizationConfig) (cluster : ClusterDict) :
    List PyStr × ℚ :=
  let found_keywords := dedupF (config.urgency_keywords.filter
    (fun keyword => cluster.similar_articles.any
      (fun a => isSubstring (pyLower keyword)
        (pyLower a.title ++ ' ' :: pyLower a.summary))))
  let keyword_count := found_keywords.length
  let bonus : ℚ :=
    if 3 ≤ keyword_count then 3/10
    else if 2 ≤ keyword_count then 2/10
    else if 1 ≤ keyword_count then 1/10
    else 0
  (found_keywords, bonus)

/-- Model of `_get_unique_sources` (a Python set; first-occurrence
order). -/
def get_unique_sources (cluster : ClusterDict) : List PyStr :=
  dedupF ((cluster.similar_articles.map (fun a => a.source)).filter (fun s => !s.isEmpty))

/-- Model of `_determine_geographic_scope`. -/
def determine_geographic_scope (cluster : ClusterDict) : PyStr :=
  let all_text := cluster.similar_articles.foldl
    (fun acc a => acc ++ ' ' :: a.title ++ ' ' :: a.summary) []
  let text_lower := pyLower all_text
  let international_keywords : List PyStr :=
    ["international", "global", "world", "overseas", "foreign",
     "usa", "china", "europe", "asia", "america", "uk", "us "].map String.toList
  let national_keywords : List PyStr :=
    ["australia", "australian", "national", "federal", "commonwealth",
     "parliament", "government", "prime minister", "rba", "asx"].map String.toList
  let state_keywords : List PyStr :=
    ["nsw", "victoria", "queensland", "western australia", "south australia",
     "tasmania", "northern territory", "act", "state government"].map String.toList
  if international_keywords.any (fun k => isSubstring k text_lower) then ("international").toList
  else if national_keywords.any (fun k => isSubstring k text_lower) then ("national").toList
  else if state_keywords.any (fun k => isSubstring k text_lower) then ("state").toList
  else ("local").toList

/-- Model of `_calculate_geographic_scope`. -/
def calculate_geographic_scope (cluster : ClusterDict) : ℚ :=
  let scope := determine_geographic_scope cluster
  if scope = ("international").toList then 1
  else if scope = ("national").toList then 8/10
  else if scope = ("state").toList then 6/10
  else 4/10

/-- Model of `_calculate_source_credibility`. -/
def calculate_source_credibility (sources : List PyStr) : ℚ :=
  let credibility : PyStr → ℚ := fun s =>
    if s = ("ABC News").toList then 95/100
    else if s = ("The Guardian AU").toList then 9/10
    else if s = ("Sydney Morning Herald").toList then 85/100
    else if s = ("News.com.au").toList then 3/4
    else 6/10
  if sources.isEmpty then 1/2
  else (sources.map credibility).sum / (sources.length : ℚ)

/-- The details dictionary of `calculate_breaking_news_score`. -/
structure BreakingDetails where
  time_urgency : ℚ
  source_velocity : ℚ
  urgency_keywords_found : List PyStr
  urgency_bonus : ℚ
  latest_publish_time : Int
deriving DecidableEq, Repr

/-- Model of `calculate_breaking_news_score`. -/
def calculate_breaking_news_score (config : PrioritizationConfig) (now : Int)
    (cluster : ClusterDict) : ℚ × BreakingDetails :=
  let latest_time := get_latest_publish_time now cluster
  let publish_times := get_all_publish_times cluster
  let time_urgency := calculate_time_urgency now latest_time
  let source_velocity := calculate_source_velocity config publish_times
  let uk := detect_urgency_keywords config cluster
  let base_score := time_urgency * (6/10) + source_velocity * (4/10)
  let final_score := min 1 (base_score + uk.2)
  (final_score,
   { time_urgency := time_urgency
     source_velocity := source_velocity
     urgency_keywords_found := uk.1
     urgency_bonus := uk.2
     latest_publish_time := latest_time })

/-- The details dictionary of `calculate_coverage_score`. -/
structure CoverageDetails where
  source_count : Nat
  sources : List PyStr
  similarity_confidence : ℚ
  geographic_scope : PyStr
  scope_score : ℚ
deriving DecidableEq, Repr

/-- Model of `calculate_coverage_score`. -/
def calculate_coverage_score (config : PrioritizationConfig) (cluster : ClusterDict) :
    ℚ × CoverageDetails :=
  let sources := get_unique_sources cluster
  let source_count_score := min 1 ((sources.length : ℚ) / (config.max_sources : ℚ))
  let similarity_confidence := cluster.cluster_score.getD 0
  let scope_score := calculate_geographic_scope cluster
  let coverage_score :=
    source_count_score * (5/10) + similarity_confidence * (3/10) + scope_score * (2/10)
  (coverage_score,
   { source_count := sources.length
     sources := sources
     similarity_confidence := similarity_confidence
     geographic_scope := determine_geographic_scope cluster
     scope_score := scope_score })

/-- The details dictionary of `calculate_quality_score`; all fields are
0 in the empty-cluster branch (the source's empty details dict read
back through `.get(…, 0.0)`). -/
structure QualityDetails where
  content_depth_score : ℚ
  classification_confidence : ℚ
  credibility_score : ℚ
  articles_analyzed : Nat
deriving DecidableEq, Repr

/-- Model of `calculate_quality_score`. -/
def calculate_quality_score (config : PrioritizationConfig) (cluster : ClusterDict) :
    ℚ × QualityDetails :=
  let articles := cluster.similar_articles
  if articles.isEmpty then
    (0, { content_depth_score := 0, classification_confidence := 0,
          credibility_score := 0, articles_analyzed := 0 })
  else
    let content_scores := articles.filterMap (fun a =>
      if config.min_content_length ≤ a.content.length then
        some (min 1 (((a.content.length : ℚ) - (config.min_content_length : ℚ)) /
          ((config.max_content_length : ℚ) - (config.min_content_length : ℚ))))
      else none)
    let valid := articles.filter (fun a => 0 < a.classification_confidence)
    let avg_content_depth :=
      if content_scores.isEmpty then 0 else content_scores.sum / (content_scores.length : ℚ)
    let avg_classification_conf :=
      if valid.isEmpty then 0
      else (valid.map (fun a => a.classification_confidence)).sum / (valid.length : ℚ)
    let credibility_score := calculate_source_credibility (get_unique_sources cluster)
    let quality_score :=
      avg_content_depth * (4/10) + avg_classification_conf * (4/10) +
        credibility_score * (2/10)
    (quality_score,
     { content_depth_score := avg_content_depth
       classification_confidence := avg_classification_conf
       credibility_score := credibility_score
       articles_analyzed := articles.length })

/-- Model of `_select_representative_article`; `none` for an empty
cluster. -/
def select_representative_article (now : Int) (cluster : ClusterDict) : Option ArticleDict :=
  match cluster.similar_articles with
  | [] => none
  | first :: _ =>
    let score : ArticleDict → ℚ := fun a =>
      (if 500 < a.content.length then 3/10 else 0) +
      a.classification_confidence * (3/10) +
      (match a.published_date with
       | some d =>
         let hours_ago : ℚ := ((now : ℚ) - (d : ℚ)) / 3600
         if hours_ago < 2 then 4/10 else if hours_ago < 6 then 2/10 else 0
       | none => 0)
    let best := cluster.similar_articles.foldl
      (fun (best : ArticleDict × ℚ) a =>
        if best.2 < score a then (a, score a) else best)
      (first, 0)
    some best.1

/-- Model of the loop body of `prioritize_stories`: score cluster
number `i` and build its `PrioritizedStory`. -/
def buildStory (config : PrioritizationConfig) (now : Int) (i : Nat)
    (cluster : ClusterDict) : PrioritizedStory :=
  let breaking := calculate_breaking_news_score config now cluster
  let coverage := calculate_coverage_score config cluster
  let quality := calculate_quality_score config cluster
  let overall_score :=
    breaking.1 * config.breaking_news_weight + coverage.1 * config.coverage_weight +
      quality.1 * config.quality_weight
  let metrics : StoryMetrics :=
    { breaking_news_score := breaking.1
      coverage_score := coverage.1
      quality_score := quality.1
      overall_priority_score := overall_score
      time_urgency := breaking.2.time_urgency
      source_velocity := breaking.2.source_velocity
      urgency_keywords_found := breaking.2.urgency_keywords_found
      source_count := coverage.2.source_count
      similarity_confidence := coverage.2.similarity_confidence
      geographic_scope := coverage.2.geographic_scope
      content_depth_score := quality.2.content_depth_score
      classification_confidence := quality.2.classification_confidence }
  let representative_article := select_representative_article now cluster
  { story_id := cluster.cluster_id.getD (("story_").toList ++ (Nat.repr i).toList)
    main_article_id := cluster.main_article_id.getD 0
    title := (representative_article.map (fun a => a.title)).getD (("Unknown Title").toList)
    summary := (representative_article.map (fun a => a.summary)).getD []
    category := (representative_article.map (fun a => a.category)).getD (("general").toList)
    sources := coverage.2.sources
    article_count := cluster.similar_articles.length
    latest_published := breaking.2.latest_publish_time
    first_published := get_earliest_publish_time now cluster
    metrics := metrics
    similar_articles := cluster.similar_articles
    representative_article := representative_article }

/-- Model of `StoryPrioritizationEngine.prioritize_stories`: build every
story, then sort by `overall_priority_score` descending with Python's
stable sort. -/
def prioritize_stories (config : PrioritizationConfig) (now : Int)
    (article_clusters : List ClusterDict) : List PrioritizedStory :=
  let built := (article_clusters.enum).map (fun p => buildStory config now p.1 p.2)
  sortByKeyDesc (fun s => s.metrics.overall_priority_score) built

/-- Model of `StoryPrioritizationEngine.get_top_stories`. -/
def get_top_stories (config : PrioritizationConfig) (now : Int)
    (article_clusters : List ClusterDict) (limit : Nat) : List PrioritizedStory :=
  (prioritize_stories config now article_clusters).take limit

/-!
Properties of the stable sort model: it permutes its input, sorts it by
the key (descending), and preserves the input order of key-ties (the
filter characterization of stability).
-/

theorem mem_stableInsert {α : Type} (bef : α → α → Bool) (x : α) (l : List α) (z : α) :
    z ∈ stableInsert bef x l ↔ z = x ∨ z ∈ l := by
  induction l with
  | nil => simp [stableInsert]
  | cons y ys ih =>
    by_cases h : bef x y = true
    · simp only [stableInsert, if_pos h, List.mem_cons]
    · simp only [stableInsert, if_neg h, List.mem_cons, ih]
      tauto

theorem stableInsert_perm {α : Type} (bef : α → α → Bool) (x : α) (l : List α) :
    List.Perm (stableInsert bef x l) (x :: l) := by
  induction l with
  | nil => exact List.Perm.refl _
  | cons y ys ih =>
    by_cases h : bef x y = true
    · simp only [stableInsert, if_pos h]
      exact List.Perm.refl _
    · simp only [stableInsert, if_neg h]
      exact (ih.cons y).trans (List.Perm.swap x y ys)

theorem stableSort_perm {α : Type} (bef : α → α → Bool) (l : List α) :
    List.Perm (stableSort bef l) l := by
  suffices h : ∀ (l acc : List α),
      List.Perm (List.foldl (fun acc x => stableInsert bef x acc) acc l) (acc ++ l) by
    simpa using h l []
  intro l
  induction l with
  | nil => simp
  | cons x xs ih =>
    intro acc
    refine (ih _).trans ?_
    refine (((stableInsert_perm bef x acc).append_right xs).trans ?_)
    exact List.perm_middle.symm

section SortByKey

variable {α : Type} {β : Type} [LinearOrder β] (key : α → β)

theorem stableInsert_pairwise_key (x : α) (l : List α)
    (hl : l.Pairwise (fun a b => key b ≤ key a)) :
    (stableInsert (fun x y => decide (key y < key x)) x l).Pairwise
      (fun a b => key b ≤ key a) := by
  induction l with
  | nil => simp [stableInsert]
  | cons y ys ih =>
    rcases List.pairwise_cons.mp hl with ⟨hy, hys⟩
    by_cases h : key y < key x
    · simp only [stableInsert, decide_eq_true_eq, if_pos h]
      refine List.pairwise_cons.mpr ⟨?_, hl⟩
      intro z hz
      rcases List.mem_cons.mp hz with rfl | hz
      · exact le_of_lt h
      · exact le_trans (hy z hz) (le_of_lt h)
    · simp only [stableInsert, decide_eq_true_eq, if_neg h]
      refine List.pairwise_cons.mpr ⟨?_, ih hys⟩
      intro z hz
      rcases (mem_stableInsert _ x ys z).mp hz with rfl | hz
      · exact le_of_not_lt h
      · exact hy z hz

theorem sortByKeyDesc_pairwise (l : List α) :
    (sortByKeyDesc key l).Pairwise (fun a b => key b ≤ key a) := by
  suffices h : ∀ (l acc : List α), acc.Pairwise (fun a b => key b ≤ key a) →
      (List.foldl (fun acc x => stableInsert (fun x y => decide (key y < key x)) x acc)
        acc l).Pairwise (fun a b => key b ≤ key a) by
    exact h l [] (by simp)
  intro l
  induction l with
  | nil => intro acc hacc; simpa using hacc
  | cons x xs ih =>
    intro acc hacc
    exact ih _ (stableInsert_pairwise_key key x acc hacc)

theorem filter_stableInsert_of_neg (p : α → Bool) (x : α) (l : List α) (hx : p x = false) :
    (stableInsert (fun x y => decide (key y < key x)) x l).filter p = l.filter p := by
  induction l with
  | nil => simp [stableInsert, hx]
  | cons y ys ih =>
    by_cases h : key y < key x
    · simp [stableInsert, h, hx]
    · simp only [stableInsert, decide_eq_true_eq, if_neg h]
      by_cases hy : p y = true <;> simp [List.filter_cons, hy, ih]

theorem filter_stableInsert_of_pos (q : β) (x : α) (l : List α)
    (hl : l.Pairwise (fun a b => key b ≤ key a)) (hx : key x = q) :
    (stableInsert (fun x y => decide (key y < key x)) x l).filter
        (fun z => decide (key z = q)) =
      l.filter (fun z => decide (key z = q)) ++ [x] := by
  induction l with
  | nil => simp [stableInsert, hx]
  | cons y ys ih =>
    rcases List.pairwise_cons.mp hl with ⟨hy, hys⟩
    by_cases h : key y < key x
    · have hyq : ¬ (key y = q) := by
        intro hq
        exact absurd (hx ▸ hq ▸ h) (lt_irrefl _)
      have hall : ∀ z ∈ y :: ys, ¬ (key z = q) := by
        intro z hz hq
        rcases List.mem_cons.mp hz with rfl | hz
        · exact hyq hq
        · have : key z ≤ key y := hy z hz
          rw [hq, ← hx] at this
          exact absurd (lt_of_lt_of_le h this) (lt_irrefl _)
      simp only [stableInsert, decide_eq_true_eq, if_pos h]
      rw [List.filter_cons_of_pos (by simpa using hx)]
      have : ∀ (m : List α), (∀ z ∈ m, ¬ (key z = q)) →
          m.filter (fun z => decide (key z = q)) = [] := by
        intro m hm
        apply List.filter_eq_nil_iff.mpr
        intro z hz
        simpa using hm z hz
      rw [this _ hall]
      simp
    · simp only [stableInsert, decide_eq_true_eq, if_neg h]
      by_cases hy' : key y = q <;>
        simp [List.filter_cons, hy', ih hys]

theorem sortByKeyDesc_filter_key (l : List α) (q : β) :
    (sortByKeyDesc key l).filter (fun z => decide (key z = q)) =
      l.filter (fun z => decide (key z = q)) := by
  suffices h : ∀ (l acc : List α), acc.Pairwise (fun a b => key b ≤ key a) →
      (List.foldl (fun acc x => stableInsert (fun x y => decide (key y < key x)) x acc)
          acc l).filter (fun z => decide (key z = q)) =
        acc.filter (fun z => decide (key z = q)) ++
          l.filter (fun z => decide (key z = q)) by
    simpa using h l [] (by simp)
  intro l
  induction l with
  | nil => intro acc hacc; simp
  | cons x xs ih =>
    intro acc hacc
    rw [List.foldl_cons, ih _ (stableInsert_pairwise_key key x acc hacc)]
    by_cases hx : key x = q
    · rw [filter_stableInsert_of_pos key q x acc hacc hx,
        List.filter_cons_of_pos (by simpa using hx), List.append_assoc]
      simp
    · rw [filter_stableInsert_of_neg key (fun z => decide (key z = q)) x acc
        (by simpa using hx), List.filter_cons_of_neg (by simpa using hx)]

end SortByKey

/-!
Properties of the first-occurrence deduplication `dedupF`.
-/

theorem mem_dedupF {α : Type} [DecidableEq α] (a : α) :
    ∀ l : List α, a ∈ dedupF l ↔ a ∈ l := by
  intro l
  induction l using dedupF.induct with
  | case1 => simp [dedupF]
  | case2 x l ih =>
    rw [dedupF]
    by_cases hax : a = x
    · simp [hax]
    · simp only [List.mem_cons, ih, List.mem_filter]
      simp [hax]

theorem nodup_dedupF {α : Type} [DecidableEq α] :
    ∀ l : List α, (dedupF l).Nodup := by
  intro l
  induction l using dedupF.induct with
  | case1 => simp [dedupF]
  | case2 x l ih =>
    rw [dedupF]
    refine List.nodup_cons.mpr ⟨?_, ih⟩
    intro hx
    have := (mem_dedupF x _).mp hx
    simp at this

theorem toFinset_dedupF {α : Type} [DecidableEq α] (l : List α) :
    (dedupF l).toFinset = l.toFinset := by
  ext a
  simp [mem_dedupF]

theorem length_dedupF {α : Type} [DecidableEq α] (l : List α) :
    (dedupF l).length = l.toFinset.card := by
  rw [← toFinset_dedupF, List.card_toFinset, List.Nodup.dedup (nodup_dedupF l)]

/-- Position of the first occurrence of `w` in `l` (the first-occurrence
order used by the keyword frequency tie-break). -/
def firstIdx (l : List PyStr) (w : PyStr) : Nat :=
  List.findIdx (fun u => u = w) l

theorem firstIdx_cons_self (x : PyStr) (l : List PyStr) : firstIdx (x :: l) x = 0 := by
  simp [firstIdx, List.findIdx_cons]

theorem firstIdx_cons_ne (x b : PyStr) (l : List PyStr) (h : b ≠ x) :
    firstIdx (x :: l) b = firstIdx l b + 1 := by
  have hx : ¬(x = b) := fun hh => h hh.symm
  simp [firstIdx, List.findIdx_cons, hx]

theorem dedupF_filter_pairwise_firstIdx :
    ∀ (l : List PyStr) (p : PyStr → Bool),
      (dedupF (l.filter p)).Pairwise (fun a b => firstIdx l a < firstIdx l b) := by
  intro l
  induction l with
  | nil => intro p; simp [dedupF]
  | cons x xs ih =>
    intro p
    by_cases hp : p x = true
    · rw [List.filter_cons_of_pos hp, dedupF, List.filter_filter]
      refine List.pairwise_cons.mpr ⟨?_, ?_⟩
      · intro b hb
        have hbmem := (mem_dedupF b _).mp hb
        have hbx : b ≠ x := by
          have := List.of_mem_filter hbmem
          simp only [Bool.and_eq_true, decide_eq_true_eq] at this
          exact this.1
        rw [firstIdx_cons_self, firstIdx_cons_ne x b xs hbx]
        exact Nat.succ_pos _
      · have htail := ih (fun y => decide (y ≠ x) && p y)
        refine htail.imp_of_mem ?_
        intro a b ha hb hab
        have hax : a ≠ x := by
          have := List.of_mem_filter ((mem_dedupF a _).mp ha)
          simp only [Bool.and_eq_true, decide_eq_true_eq] at this
          exact this.1
        have hbx : b ≠ x := by
          have := List.of_mem_filter ((mem_dedupF b _).mp hb)
          simp only [Bool.and_eq_true, decide_eq_true_eq] at this
          exact this.1
        rw [firstIdx_cons_ne x a xs hax, firstIdx_cons_ne x b xs hbx]
        omega
    · rw [List.filter_cons_of_neg hp]
      have htail := ih p
      refine htail.imp_of_mem ?_
      intro a b ha hb hab
      have hax : a ≠ x := by
        intro h
        have := List.of_mem_filter ((mem_dedupF a _).mp ha)
        rw [h] at this
        exact absurd this (by simp [hp])
      have hbx : b ≠ x := by
        intro h
        have := List.of_mem_filter ((mem_dedupF b _).mp hb)
        rw [h] at this
        exact absurd this (by simp [hp])
      rw [firstIdx_cons_ne x a xs hax, firstIdx_cons_ne x b xs hbx]
      omega

/-!
Concrete sample data used by the counterexample and witness theorems.
-/

/-- A minimal article with the given id, title and source. -/
def sampleArticle (i : Int) (title source : String) : NewsArticle :=
  { id := i
    title := title.toList
    url := []
    category := ("news").toList
    summary := []
    published_date := some 0
    author := []
    content := []
    source := source.toList
    tags := []
    extracted_at := [] }

/-- An in-memory article store with articles 1, 2, 3 from three sources. -/
def sampleLookup : Int → Option NewsArticle := fun i =>
  if i = 1 then some (sampleArticle 1 "fire alpha" "s1")
  else if i = 2 then some (sampleArticle 2 "fire beta" "s2")
  else if i = 3 then some (sampleArticle 3 "fire gamma" "s3")
  else none

/-- A bare similarity edge between two article ids. -/
def sampleEdge (i j : Int) (score : ℚ) : SimilarityResult :=
  { article_id_1 := i
    article_id_2 := j
    similarity_score := score
    title_similarity := 0
    keyword_similarity := 0
    time_similarity := 0
    method_used := []
    explanation := [] }

/-- The spec's concrete scenario: A–B scored 0.75 and B–C scored 0.72. -/
def edgeAB : SimilarityResult := sampleEdge 1 2 (75/100)

/-- The B–C edge of the spec's concrete scenario. -/
def edgeBC : SimilarityResult := sampleEdge 2 3 (72/100)

/-- A second result for the pair A–B, scored 0.72. -/
def edgeAB' : SimilarityResult := sampleEdge 1 2 (72/100)

/-- C1: the Cluster Builder does NOT compute connected components: on the
spec's own scenario (edges A–B at 0.75 and B–C at 0.72, both above
threshold), `_create_article_clusters` greedily claims A and B after the
first edge, skips the B–C edge because B is already processed, and emits
the single two-element cluster {A, B}; article C is never placed in the
cluster with A and B. -/
theorem create_article_clusters_not_connected_components :
    edgeAB.is_similar = true ∧ edgeBC.is_similar = true ∧
      (create_article_clusters sampleLookup 0 [edgeAB, edgeBC]).map
        ArticleCluster.memberIds = [[1, 2]] := by
  with_unfolding_all decide

/-- C2: articles are lost by the Cluster Builder: on the same input,
article 3 is joined to article 2 by an above-threshold edge yet appears
in zero output clusters (and an article with no partner at all can never
appear, since the function only ever reads the edge list). -/
theorem create_article_clusters_loses_articles :
    edgeBC.is_similar = true ∧
      (create_article_clusters sampleLookup 0 [edgeAB, edgeBC]).countP
        (fun cl => cl.memberIds.contains 3) = 0 ∧
      (create_article_clusters sampleLookup 0 [edgeAB, edgeBC]).length = 1 := by
  with_unfolding_all decide

/-- C3: the cohesion score of a built cluster is the score of the single
edge that created it, not the mean of all edges inside the cluster: with
two results for the pair {1, 2} scored 0.75 and 0.72, the cluster is
emitted with `cluster_score = 0.75`, while the mean of the edges whose
endpoints both lie in the cluster is 0.735. -/
theorem create_article_clusters_score_not_mean :
    (create_article_clusters sampleLookup 0 [edgeAB, edgeAB']).map
        (fun cl => cl.cluster_score) = [75/100] ∧
      ¬ ((75 : ℚ)/100 =
        (edgeAB.similarity_score + edgeAB'.similarity_score) / 2) := by
  with_unfolding_all decide

/-- C6: `prioritize_stories` returns the built stories sorted
non-increasingly by `overall_priority_score`, and the sort is stable:
for every score value, the stories carrying that score appear in exactly
the order in which their clusters were given (the filter
characterization of stability). -/
theorem prioritize_stories_sorted_and_stable (config : PrioritizationConfig) (now : Int)
    (article_clusters : List ClusterDict) :
    (prioritize_stories config now article_clusters).Pairwise
      (fun s t => t.metrics.overall_priority_score ≤ s.metrics.overall_priority_score) ∧
    ∀ q : ℚ,
      (prioritize_stories config now article_clusters).filter
          (fun s => decide (s.metrics.overall_priority_score = q)) =
        ((article_clusters.enum).map (fun p => buildStory config now p.1 p.2)).filter
          (fun s => decide (s.metrics.overall_priority_score = q)) := by
  refine ⟨sortByKeyDesc_pairwise _ _, ?_⟩
  intro q
  exact sortByKeyDesc_filter_key _ _ q

/-- C7: constructing a `PrioritizationConfig` whose three weights sum to
a value differing from 1.0 by more than 0.01 raises a `ValueError`,
while weights summing to 1.0 construct successfully and are stored
exactly as given (no renormalization). -/
theorem prioritization_config_weight_validation (b c q : ℚ) (kw : Option (List PyStr)) :
    (1/100 < |b + c + q - 1| →
      ∃ msg, mkPrioritizationConfig b c q kw = .error msg) ∧
    (b + c + q = 1 →
      ∃ cfg, mkPrioritizationConfig b c q kw = .ok cfg ∧
        cfg.breaking_news_weight = b ∧ cfg.coverage_weight = c ∧
        cfg.quality_weight = q) := by
  constructor
  · intro h
    unfold mkPrioritizationConfig
    rw [if_pos h]
    exact ⟨_, rfl⟩
  · intro h
    unfold mkPrioritizationConfig
    rw [if_neg (by rw [h]; with_unfolding_all decide)]
    exact ⟨_, rfl, rfl, rfl, rfl⟩

/-- Witness for C7: weights summing to 0.5 are rejected, the default
weights 0.4/0.35/0.25 are accepted unchanged. -/
theorem prioritization_config_weight_validation_witness :
    (∃ msg, mkPrioritizationConfig (2/10) (2/10) (1/10) none = .error msg) ∧
    (∃ cfg, mkPrioritizationConfig (4/10) (35/100) (25/100) none = .ok cfg ∧
      cfg.breaking_news_weight = 4/10 ∧ cfg.coverage_weight = 35/100 ∧
      cfg.quality_weight = 25/100) :=
  ⟨(prioritization_config_weight_validation (2/10) (2/10) (1/10) none).1
      (by with_unfolding_all decide),
   (prioritization_config_weight_validation (4/10) (35/100) (25/100) none).2
      (by norm_num)⟩

/-!
Claim C4: symmetry of the overall similarity score.
-/

/-- A pair of articles whose titles make `SequenceMatcher.ratio`
order-dependent (`ratio("fire", "rain storm") = 2/7` but
`ratio("rain storm", "fire") = 1/7`). -/
def fireArticle : NewsArticle := sampleArticle 1 "fire" "s1"

/-- The partner article of `fireArticle`. -/
def rainStormArticle : NewsArticle := sampleArticle 2 "rain storm" "s2"

/-- C4 counterexample: the overall similarity score is NOT symmetric:
swapping the two articles changes the score (97/280 against 73/280),
because `difflib.SequenceMatcher.ratio` depends on its argument order. -/
theorem overall_similarity_not_symmetric :
    (calculate_overall_similarity defaultDetector fireArticle rainStormArticle).similarity_score ≠
      (calculate_overall_similarity defaultDetector rainStormArticle fireArticle).similarity_score := by
  with_unfolding_all decide

/-- The time-similarity component is symmetric. -/
theorem calculate_time_similarity_symm (d1 d2 : Option Int) :
    calculate_time_similarity d1 d2 = calculate_time_similarity d2 d1 := by
  cases d1 with
  | none => cases d2 <;> rfl
  | some t1 =>
    cases d2 with
    | none => rfl
    | some t2 =>
      unfold calculate_time_similarity
      dsimp only
      rw [abs_sub_comm]

/-- Every keyword list produced by `extract_keywords` is duplicate-free. -/
theorem extract_keywords_nodup (text : PyStr) (min_length max_words : Nat) :
    (extract_keywords text min_length max_words).Nodup := by
  unfold extract_keywords
  by_cases he : text.isEmpty
  · simp [he]
  · rw [if_neg he]
    dsimp only
    by_cases hlen : max_words < (survivingKeywords min_length text).length
    · rw [if_pos hlen]
      have hmap : ((sortByKeyDesc (fun p => p.2)
          ((survivingKeywords min_length text).map
            (fun w => (w, (tokenizeWords text).count w)))).map Prod.fst).Nodup := by
        have hperm : List.Perm
            ((sortByKeyDesc (fun p => (p : PyStr × Nat).2)
              ((survivingKeywords min_length text).map
                (fun w => (w, (tokenizeWords text).count w)))).map Prod.fst)
            (((survivingKeywords min_length text).map
              (fun w => (w, (tokenizeWords text).count w))).map Prod.fst) :=
          (stableSort_perm _ _).map _
        rw [hperm.nodup_iff, List.map_map]
        have hsk : (survivingKeywords min_length text).Nodup := by
          unfold survivingKeywords
          exact nodup_dedupF _
        rw [show (Prod.fst ∘ fun w : PyStr => (w, List.count w (tokenizeWords text))) = id
          from rfl, List.map_id]
        exact hsk
      rw [List.map_take]
      exact List.Nodup.sublist (List.take_sublist _ _) hmap
    · rw [if_neg hlen]
      exact nodup_dedupF _

theorem length_filter_contains (l1 l2 : List PyStr) (h1 : l1.Nodup) :
    (l1.filter (fun w => l2.contains w)).length = (l1.toFinset ∩ l2.toFinset).card := by
  have hnd : (l1.filter (fun w => l2.contains w)).Nodup := h1.filter _
  have hlen : (l1.filter (fun w => l2.contains w)).toFinset.card =
      (l1.filter (fun w => l2.contains w)).length := by
    rw [List.card_toFinset, List.Nodup.dedup hnd]
  rw [← hlen, List.toFinset_filter]
  congr 1
  ext a
  simp [List.elem_iff]

theorem filter_contains_length_comm (l1 l2 : List PyStr)
    (h1 : l1.Nodup) (h2 : l2.Nodup) :
    (l1.filter (fun w => l2.contains w)).length =
      (l2.filter (fun w => l1.contains w)).length := by
  rw [length_filter_contains l1 l2 h1, length_filter_contains l2 l1 h2,
    Finset.inter_comm]

theorem length_dedupF_append_comm {α : Type} [DecidableEq α] (l1 l2 : List α) :
    (dedupF (l1 ++ l2)).length = (dedupF (l2 ++ l1)).length := by
  rw [length_dedupF, length_dedupF, List.toFinset_append, List.toFinset_append,
    Finset.union_comm]

/-- The keyword-similarity component is symmetric. -/
theorem calculate_keyword_similarity_symm (article1 article2 : NewsArticle) :
    calculate_keyword_similarity article1 article2 =
      calculate_keyword_similarity article2 article1 := by
  unfold calculate_keyword_similarity
  dsimp only
  rw [Bool.or_comm]
  by_cases hemp : ((extract_keywords (article2.title ++ ' ' :: article2.summary ++
      ' ' :: joinWords article2.tags) 3 20).isEmpty ||
    (extract_keywords (article1.title ++ ' ' :: article1.summary ++
      ' ' :: joinWords article1.tags) 3 20).isEmpty) = true
  · rw [if_pos hemp, if_pos hemp]
  · rw [if_neg hemp, if_neg hemp]
    have hinter := filter_contains_length_comm
      (extract_keywords (article1.title ++ ' ' :: article1.summary ++
        ' ' :: joinWords article1.tags) 3 20)
      (extract_keywords (article2.title ++ ' ' :: article2.summary ++
        ' ' :: joinWords article2.tags) 3 20)
      (extract_keywords_nodup _ 3 20) (extract_keywords_nodup _ 3 20)
    have hunion := length_dedupF_append_comm
      (extract_keywords (article1.title ++ ' ' :: article1.summary ++
        ' ' :: joinWords article1.tags) 3 20)
      (extract_keywords (article2.title ++ ' ' :: article2.summary ++
        ' ' :: joinWords article2.tags) 3 20)
    rw [hinter, hunion]
    by_cases hcat : article1.category = article2.category
    · rw [if_pos hcat, if_pos hcat.symm]
    · rw [if_neg hcat,
        if_neg (fun h : article2.category = article1.category => hcat h.symm)]

/-- C4 (amended): the keyword-similarity and time-similarity components
of the overall score are symmetric in the two articles; the overall
score itself is not symmetric in general, because the title component's
`SequenceMatcher.ratio` depends on argument order (see the
counterexample). -/
theorem similarity_components_symm (article1 article2 : NewsArticle) :
    calculate_keyword_similarity article1 article2 =
        calculate_keyword_similarity article2 article1 ∧
      calculate_time_similarity article1.published_date article2.published_date =
        calculate_time_similarity article2.published_date article1.published_date :=
  ⟨calculate_keyword_similarity_symm article1 article2,
   calculate_time_similarity_symm article1.published_date article2.published_date⟩

/-!
Claim C5: the batch detector only emits above-threshold, cross-source
results.
-/

/-- C5: every result emitted by `batch_similarity_detection` scores at
least the configured threshold, and stems from a pair of input articles
whose sources differ (same-source pairs are never emitted). -/
theorem batch_detection_threshold_and_cross_source (det : SimilarityDetector)
    (articles : List NewsArticle) (r : SimilarityResult)
    (hr : r ∈ batch_similarity_detection det articles) :
    det.similarity_threshold ≤ r.similarity_score ∧
      ∃ a1 a2, a1 ∈ articles ∧ a2 ∈ articles ∧ a1.source ≠ a2.source ∧
        r = calculate_overall_similarity det a1 a2 := by
  unfold batch_similarity_detection at hr
  simp only [List.mem_flatMap, List.mem_filterMap, List.mem_filter] at hr
  obtain ⟨p, hp, a2, ⟨ha2drop, hsrc⟩, hcalc⟩ := hr
  have ha1 : p.2 ∈ articles := by
    have := List.enum_map_snd articles
    exact this ▸ List.mem_map_of_mem Prod.snd hp
  have ha2 : a2 ∈ articles := (List.drop_sublist _ _).subset ha2drop
  by_cases hth : det.similarity_threshold ≤
      (calculate_overall_similarity det p.2 a2).similarity_score
  · rw [if_pos hth] at hcalc
    have hreq : r = calculate_overall_similarity det p.2 a2 :=
      (Option.some_injective _ hcalc).symm
    subst hreq
    exact ⟨hth, p.2, a2, ha1, ha2, by simpa using hsrc, rfl⟩
  · rw [if_neg hth] at hcalc
    exact absurd hcalc (by simp)

/-- Two same-titled articles from different sources, used to witness C5. -/
def stormArticle1 : NewsArticle := sampleArticle 1 "storm flood" "s1"

/-- The cross-source twin of `stormArticle1`. -/
def stormArticle2 : NewsArticle := sampleArticle 2 "storm flood" "s2"

set_option maxRecDepth 100000 in
/-- Witness for C5 at a concrete batch of two articles whose pair scores
1.0 and is emitted. -/
theorem batch_detection_threshold_and_cross_source_witness :
    defaultDetector.similarity_threshold ≤
        (calculate_overall_similarity defaultDetector stormArticle1
          stormArticle2).similarity_score ∧
      ∃ a1 a2, a1 ∈ [stormArticle1, stormArticle2] ∧
        a2 ∈ [stormArticle1, stormArticle2] ∧ a1.source ≠ a2.source ∧
        calculate_overall_similarity defaultDetector stormArticle1 stormArticle2 =
          calculate_overall_similarity defaultDetector a1 a2 :=
  batch_detection_threshold_and_cross_source defaultDetector
    [stormArticle1, stormArticle2]
    (calculate_overall_similarity defaultDetector stormArticle1 stormArticle2)
    (by with_unfolding_all decide)

/-!
Structure of `clean_title`'s output: token and character lemmas used for
idempotence (C10) and for the title-score shape (C9).
-/

theorem mem_joinWords : ∀ (ws : List PyStr) (c : Char),
    c ∈ joinWords ws → c = ' ' ∨ ∃ w ∈ ws, c ∈ w := by
  intro ws
  induction ws with
  | nil => intro c hc; simp [joinWords] at hc
  | cons w ws ih =>
    intro c hc
    cases ws with
    | nil =>
      simp only [joinWords] at hc
      exact Or.inr ⟨w, by simp, hc⟩
    | cons w' ws' =>
      simp only [joinWords] at hc
      rcases List.mem_append.mp hc with h | h
      · exact Or.inr ⟨w, by simp, h⟩
      · rcases List.mem_cons.mp h with rfl | h
        · exact Or.inl rfl
        · rcases ih c h with h' | ⟨u, hu, hcu⟩
          · exact Or.inl h'
          · exact Or.inr ⟨u, by simp [hu], hcu⟩

theorem splitWsAux_spec : ∀ (s acc : List Char),
    (∀ c ∈ acc, isSpaceChar c = false) →
    ∀ w ∈ splitWsAux s acc,
      w ≠ [] ∧ ∀ c ∈ w, isSpaceChar c = false ∧ (c ∈ s ∨ c ∈ acc) := by
  intro s
  induction s with
  | nil =>
    intro acc hacc w hw
    simp only [splitWsAux] at hw
    by_cases h : acc.isEmpty
    · simp [h] at hw
    · rw [if_neg h] at hw
      rcases List.mem_singleton.mp hw with rfl
      refine ⟨by simpa [List.isEmpty_iff] using h, ?_⟩
      intro c hc
      rw [List.mem_reverse] at hc
      exact ⟨hacc c hc, Or.inr hc⟩
  | cons c0 cs ih =>
    intro acc hacc w hw
    simp only [splitWsAux] at hw
    by_cases hsp : isSpaceChar c0 = true
    · rw [if_pos hsp] at hw
      by_cases hae : acc.isEmpty
      · rw [if_pos hae] at hw
        rcases ih [] (by simp) w hw with ⟨hne, hch⟩
        refine ⟨hne, fun c hc => ?_⟩
        rcases hch c hc with ⟨hsc, hmem | hmem⟩
        · exact ⟨hsc, Or.inl (by simp [hmem])⟩
        · simp at hmem
      · rw [if_neg hae] at hw
        rcases List.mem_cons.mp hw with rfl | hw'
        · refine ⟨by simpa [List.isEmpty_iff] using hae, ?_⟩
          intro c hc
          rw [List.mem_reverse] at hc
          exact ⟨hacc c hc, Or.inr hc⟩
        · rcases ih [] (by simp) w hw' with ⟨hne, hch⟩
          refine ⟨hne, fun c hc => ?_⟩
          rcases hch c hc with ⟨hsc, hmem | hmem⟩
          · exact ⟨hsc, Or.inl (by simp [hmem])⟩
          · simp at hmem
    · rw [if_neg hsp] at hw
      have hacc' : ∀ c ∈ (c0 :: acc), isSpaceChar c = false := by
        intro c hc
        rcases List.mem_cons.mp hc with rfl | hc
        · exact Bool.eq_false_iff.mpr (fun h => hsp h)
        · exact hacc c hc
      rcases ih (c0 :: acc) hacc' w hw with ⟨hne, hch⟩
      refine ⟨hne, fun c hc => ?_⟩
      rcases hch c hc with ⟨hsc, hmem | hmem⟩
      · exact ⟨hsc, Or.inl (by simp [hmem])⟩
      · rcases List.mem_cons.mp hmem with rfl | hmem
        · exact ⟨hsc, Or.inl (by simp)⟩
        · exact ⟨hsc, Or.inr hmem⟩

theorem splitWs_tokens (s : List Char) :
    ∀ w ∈ splitWs s, w ≠ [] ∧ ∀ c ∈ w, isSpaceChar c = false ∧ c ∈ s := by
  intro w hw
  rcases splitWsAux_spec s [] (by simp) w hw with ⟨hne, hch⟩
  refine ⟨hne, fun c hc => ?_⟩
  rcases hch c hc with ⟨hsc, hmem | hmem⟩
  · exact ⟨hsc, hmem⟩
  · simp at hmem

theorem splitWsAux_word (w : PyStr) (hw : ∀ c ∈ w, isSpaceChar c = false) :
    ∀ (cs acc : List Char), splitWsAux (w ++ cs) acc = splitWsAux cs (w.reverse ++ acc) := by
  induction w with
  | nil => simp
  | cons c w' ih =>
    intro cs acc
    have hc : isSpaceChar c = false := hw c (by simp)
    simp only [List.cons_append, splitWsAux]
    rw [if_neg (by simp [hc])]
    show splitWsAux (w' ++ cs) (c :: acc) = splitWsAux cs ((c :: w').reverse ++ acc)
    rw [ih (fun d hd => hw d (by simp [hd])) cs (c :: acc)]
    simp

theorem splitWs_joinWords : ∀ ws : List PyStr,
    (∀ w ∈ ws, w ≠ [] ∧ ∀ c ∈ w, isSpaceChar c = false) →
    splitWs (joinWords ws) = ws := by
  intro ws
  induction ws with
  | nil => intro _; rfl
  | cons w ws ih =>
    intro h
    obtain ⟨hw_ne, hw_sp⟩ := h w (by simp)
    cases ws with
    | nil =>
      show splitWsAux (joinWords [w]) [] = [w]
      have hj : joinWords [w] = w := rfl
      rw [hj]
      have h2 := splitWsAux_word w hw_sp [] []
      rw [List.append_nil] at h2
      rw [h2]
      simp only [splitWsAux]
      rw [if_neg (by simp [List.isEmpty_iff]; simpa using hw_ne)]
      simp
    | cons w' ws' =>
      show splitWsAux (joinWords (w :: w' :: ws')) [] = w :: w' :: ws'
      have hj : joinWords (w :: w' :: ws') = w ++ ' ' :: joinWords (w' :: ws') := rfl
      rw [hj, splitWsAux_word w hw_sp (' ' :: joinWords (w' :: ws')) []]
      simp only [splitWsAux]
      rw [if_pos (by rfl : isSpaceChar ' ' = true)]
      rw [if_neg (by simp [List.isEmpty_iff]; simpa using hw_ne)]
      have htail : splitWsAux (joinWords (w' :: ws')) [] = w' :: ws' :=
        ih (fun v hv => h v (by simp [hv]))
      show (w.reverse ++ []).reverse :: splitWsAux (joinWords (w' :: ws')) [] =
        w :: w' :: ws'
      rw [htail]
      simp

theorem pyToLower_toNat_of_upper (c : Char) (h : 65 ≤ c.toNat ∧ c.toNat ≤ 90) :
    (pyToLower c).toNat = c.toNat + 32 := by
  unfold pyToLower
  rw [dif_pos h]
  rfl

theorem pyToLower_eq_of_not_upper (c : Char) (h : ¬(65 ≤ c.toNat ∧ c.toNat ≤ 90)) :
    pyToLower c = c := by
  unfold pyToLower
  rw [dif_neg h]

theorem pyToLower_idem (c : Char) : pyToLower (pyToLower c) = pyToLower c := by
  by_cases h : 65 ≤ c.toNat ∧ c.toNat ≤ 90
  · have hn := pyToLower_toNat_of_upper c h
    exact pyToLower_eq_of_not_upper _ (by rw [hn]; omega)
  · rw [pyToLower_eq_of_not_upper c h, pyToLower_eq_of_not_upper c h]

theorem stripPunctChar_idem (c : Char) :
    stripPunctChar (stripPunctChar c) = stripPunctChar c := by
  unfold stripPunctChar
  by_cases h : (isWordChar c || isSpaceChar c || c = '\'') = true
  · rw [if_pos h, if_pos h]
  · rw [if_neg h, if_pos (by decide)]

theorem stripPunctChar_cases (c : Char) :
    stripPunctChar c = c ∨ stripPunctChar c = ' ' := by
  unfold stripPunctChar
  by_cases h : (isWordChar c || isSpaceChar c || c = '\'') = true
  · exact Or.inl (if_pos h)
  · exact Or.inr (if_neg h)

/-- Every character of `stripPunct (pyLower t)` is fixed by both
`pyToLower` and `stripPunctChar`. -/
theorem mem_stripPunct_pyLower_fixed (t : PyStr) (c : Char)
    (hc : c ∈ stripPunct (pyLower t)) :
    pyToLower c = c ∧ stripPunctChar c = c := by
  unfold stripPunct pyLower at hc
  rw [List.map_map] at hc
  rcases List.mem_map.mp hc with ⟨d, _, rfl⟩
  constructor
  · rcases stripPunctChar_cases (pyToLower d) with h | h
    · rw [Function.comp_apply, h]
      exact pyToLower_idem d
    · rw [Function.comp_apply, h]
      rfl
  · exact stripPunctChar_idem _

theorem map_fix {α : Type} (f : α → α) (l : List α) (h : ∀ a ∈ l, f a = a) :
    l.map f = l := by
  induction l with
  | nil => rfl
  | cons a l ih =>
    rw [List.map_cons, h a (by simp), ih (fun b hb => h b (by simp [hb]))]

/-- `clean_title` in closed form: filter the tokens of the
punctuation-stripped, lower-cased title and re-join them. -/
theorem clean_title_eq (title : PyStr) :
    clean_title title =
      joinWords ((splitWs (stripPunct (pyLower title))).filter meaningfulWord) := by
  unfold clean_title
  by_cases he : title.isEmpty
  · rw [if_pos he]
    have ht : title = [] := List.isEmpty_iff.mp he
    subst ht
    rfl
  · rw [if_neg he]
    dsimp only
    have hsj : splitWs (joinWords (splitWs (stripPunct (pyLower title)))) =
        splitWs (stripPunct (pyLower title)) := by
      apply splitWs_joinWords
      intro w hw
      rcases splitWs_tokens _ w hw with ⟨hne, hch⟩
      exact ⟨hne, fun c hc => (hch c hc).1⟩
    rw [hsj]

/-- C10: title normalization is idempotent: `clean_title` applied to its
own output returns it unchanged. -/
theorem clean_title_idempotent (title : PyStr) :
    clean_title (clean_title title) = clean_title title := by
  rw [clean_title_eq title]
  set M := (splitWs (stripPunct (pyLower title))).filter meaningfulWord with hM
  have hMtok : ∀ w ∈ M, w ≠ [] ∧ ∀ c ∈ w, isSpaceChar c = false := by
    intro w hw
    have hw' : w ∈ splitWs (stripPunct (pyLower title)) := List.mem_of_mem_filter hw
    rcases splitWs_tokens _ w hw' with ⟨hne, hch⟩
    exact ⟨hne, fun c hc => (hch c hc).1⟩
  have hMchar : ∀ w ∈ M, ∀ c ∈ w, pyToLower c = c ∧ stripPunctChar c = c := by
    intro w hw c hc
    have hw' : w ∈ splitWs (stripPunct (pyLower title)) := List.mem_of_mem_filter hw
    rcases splitWs_tokens _ w hw' with ⟨_, hch⟩
    exact mem_stripPunct_pyLower_fixed title c (hch c hc).2
  have hfix : ∀ c ∈ joinWords M, pyToLower c = c ∧ stripPunctChar c = c := by
    intro c hc
    rcases mem_joinWords M c hc with rfl | ⟨w, hw, hcw⟩
    · exact ⟨rfl, rfl⟩
    · exact hMchar w hw c hcw
  have hlower : pyLower (joinWords M) = joinWords M :=
    map_fix _ _ (fun c hc => (hfix c hc).1)
  have hstrip : stripPunct (joinWords M) = joinWords M :=
    map_fix _ _ (fun c hc => (hfix c hc).2)
  have hsplit : splitWs (joinWords M) = M := splitWs_joinWords M hMtok
  have hfilter : M.filter meaningfulWord = M := by
    rw [hM, List.filter_filter]
    apply List.filter_congr
    intro w hw
    exact Bool.and_self _
  rw [clean_title_eq (joinWords M), hlower, hstrip, hsplit, hfilter]

/-!
Claim C9: the shape of the title score.  `titleScoreJaccardSpec` states
the claim's formula verbatim (boost proportional to the Jaccard overlap
of the word sets); `titleScoreOverlapSpec` is the amended formula
(boost proportional to overlap divided by the LARGER word-set size).
-/

/-- The claim's formula: sequence ratio plus 0.20 times the Jaccard
overlap (intersection size / union size) of the word sets, capped at 1. -/
def titleScoreJaccardSpec (title1 title2 : PyStr) : ℚ :=
  let c1 := clean_title title1
  let c2 := clean_title title2
  let w1 := dedupF (splitWs c1)
  let w2 := dedupF (splitWs c2)
  let overlap := (w1.filter (fun w => w2.contains w)).length
  let union := (dedupF (w1 ++ w2)).length
  min 1 (seqRatio c1 c2 + (2/10) * ((overlap : ℚ) / (union : ℚ)))

/-- The amended formula: sequence ratio plus 0.20 times the overlap
count divided by the size of the larger word set, capped at 1. -/
def titleScoreOverlapSpec (title1 title2 : PyStr) : ℚ :=
  let c1 := clean_title title1
  let c2 := clean_title title2
  let w1 := dedupF (splitWs c1)
  let w2 := dedupF (splitWs c2)
  let overlap := (w1.filter (fun w => w2.contains w)).length
  min 1 (seqRatio c1 c2 + (2/10) * ((overlap : ℚ) / ((max w1.length w2.length : Nat) : ℚ)))

/-- C9 counterexample: on the titles "alpha beta" / "beta gamma" the
title score is 1/2 (= 2/5 + 0.2·(1/2), overlap over the larger set),
not 2/5 + 0.2·(1/3) as the Jaccard formula would give. -/
theorem title_score_not_jaccard :
    calculate_title_similarity ("alpha beta").toList ("beta gamma").toList ≠
      titleScoreJaccardSpec ("alpha beta").toList ("beta gamma").toList := by
  with_unfolding_all decide

theorem clean_title_isEmpty_false (t : PyStr) (h : clean_title t ≠ []) :
    t.isEmpty = false := by
  by_cases he : t.isEmpty
  · exfalso
    apply h
    unfold clean_title
    rw [if_pos he]
  · exact Bool.eq_false_iff.mpr he

theorem splitWs_clean_title (t : PyStr) :
    splitWs (clean_title t) =
      (splitWs (stripPunct (pyLower t))).filter meaningfulWord := by
  rw [clean_title_eq]
  apply splitWs_joinWords
  intro w hw
  have hw' : w ∈ splitWs (stripPunct (pyLower t)) := List.mem_of_mem_filter hw
  rcases splitWs_tokens _ w hw' with ⟨hne, hch⟩
  exact ⟨hne, fun c hc => (hch c hc).1⟩

theorem splitWs_clean_title_ne_nil (t : PyStr) (h : clean_title t ≠ []) :
    splitWs (clean_title t) ≠ [] := by
  rw [splitWs_clean_title]
  intro hM
  apply h
  rw [clean_title_eq, hM]
  rfl

theorem dedupF_length_pos {α : Type} [DecidableEq α] (l : List α) (h : l ≠ []) :
    0 < (dedupF l).length := by
  cases l with
  | nil => exact absurd rfl h
  | cons a l =>
    rw [dedupF]
    simp

/-- C9 (amended): for every pair of titles with non-empty normalized
forms, the title score equals the sequence ratio of the normalized
titles plus 0.20 times the word overlap divided by the size of the
larger word set, capped at 1.0. -/
theorem title_score_eq_overlap_spec (title1 title2 : PyStr)
    (h1 : clean_title title1 ≠ []) (h2 : clean_title title2 ≠ []) :
    calculate_title_similarity title1 title2 = titleScoreOverlapSpec title1 title2 := by
  have hie1 := clean_title_isEmpty_false title1 h1
  have hie2 := clean_title_isEmpty_false title2 h2
  have hce1 : (clean_title title1).isEmpty = false :=
    Bool.eq_false_iff.mpr (fun hh => h1 (List.isEmpty_iff.mp hh))
  have hce2 : (clean_title title2).isEmpty = false :=
    Bool.eq_false_iff.mpr (fun hh => h2 (List.isEmpty_iff.mp hh))
  unfold calculate_title_similarity titleScoreOverlapSpec
  dsimp only
  rw [if_neg (by simp [hie1, hie2]), if_neg (by simp [hce1, hce2]),
    if_pos ⟨dedupF_length_pos _ (splitWs_clean_title_ne_nil _ h1),
      dedupF_length_pos _ (splitWs_clean_title_ne_nil _ h2)⟩]
  exact congrArg (min 1) (by ring)

/-- Witness for C9's amended theorem at the titles "alpha beta" and
"beta gamma" (both already normalized and non-empty). -/
theorem title_score_eq_overlap_spec_witness :
    clean_title ("alpha beta").toList ≠ [] ∧
      clean_title ("beta gamma").toList ≠ [] ∧
      calculate_title_similarity ("alpha beta").toList ("beta gamma").toList =
        titleScoreOverlapSpec ("alpha beta").toList ("beta gamma").toList :=
  ⟨by decide, by decide,
   title_score_eq_overlap_spec ("alpha beta").toList ("beta gamma").toList
     (by decide) (by decide)⟩

/-!
Claim C8: `extract_keywords` is bounded by `max_words`, and when it
truncates it keeps the most frequent surviving keywords, breaking
frequency ties by first occurrence in the tokenized text.
-/

/-- C8: the keyword list is at most `max_words` long, and every kept
keyword `w` beats every dropped surviving keyword `v`: either `w` is
strictly more frequent, or they are equally frequent and `w` occurs
first in the text. -/
theorem extract_keywords_bounded_and_most_frequent (text : PyStr)
    (min_length max_words : Nat) :
    (extract_keywords text min_length max_words).length ≤ max_words ∧
    ∀ w ∈ extract_keywords text min_length max_words,
      ∀ v ∈ survivingKeywords min_length text,
        v ∉ extract_keywords text min_length max_words →
        ((tokenizeWords text).count v < (tokenizeWords text).count w ∨
          ((tokenizeWords text).count v = (tokenizeWords text).count w ∧
            firstIdx (tokenizeWords text) w < firstIdx (tokenizeWords text) v)) := by
  by_cases he : text.isEmpty
  · constructor
    · unfold extract_keywords
      simp [he]
    · intro w hw
      unfold extract_keywords at hw
      simp [he] at hw
  · have hres : extract_keywords text min_length max_words =
        if max_words < (survivingKeywords min_length text).length then
          ((sortByKeyDesc (fun p => p.2)
            ((survivingKeywords min_length text).map
              (fun w => (w, (tokenizeWords text).count w)))).take max_words).map Prod.fst
        else survivingKeywords min_length text := by
      unfold extract_keywords
      rw [if_neg he]
    by_cases hlen : max_words < (survivingKeywords min_length text).length
    case neg =>
      rw [if_neg hlen] at hres
      constructor
      · rw [hres]; omega
      · intro w _ v hv hvnot
        rw [hres] at hvnot
        exact absurd hv hvnot
    case pos =>
      rw [if_pos hlen] at hres
      set words := tokenizeWords text with hwords
      set keywords := survivingKeywords min_length text with hkw
      set word_freq := keywords.map (fun w => (w, words.count w)) with hwf
      set sorted := sortByKeyDesc (fun p : PyStr × Nat => p.2) word_freq with hsorted
      have hperm : List.Perm sorted word_freq := stableSort_perm _ _
      have hmemwf : ∀ p ∈ word_freq, p.1 ∈ keywords ∧ p = (p.1, words.count p.1) := by
        intro p hp
        rcases List.mem_map.mp hp with ⟨u, hu, rfl⟩
        exact ⟨hu, rfl⟩
      constructor
      · rw [hres]
        simp [List.length_take]
      · intro w hw v hv hvnot
        rw [hres] at hw hvnot
        rcases List.mem_map.mp hw with ⟨pw, hpwtake, hpw1⟩
        have hpwsorted : pw ∈ sorted := (List.take_sublist _ _).subset hpwtake
        have hpwwf := hmemwf pw (hperm.subset hpwsorted)
        have hpweq : pw = (w, words.count w) := by
          rw [hpwwf.2, hpw1]
        have hpv : (v, words.count v) ∈ word_freq := List.mem_map_of_mem _ hv
        have hpvsorted : (v, words.count v) ∈ sorted := hperm.symm.subset hpv
        have hpvdrop : (v, words.count v) ∈ sorted.drop max_words := by
          rcases (List.mem_append.mp
            ((List.take_append_drop max_words sorted).symm ▸ hpvsorted)) with h | h
          · exact absurd (List.mem_map_of_mem Prod.fst h) hvnot
          · exact h
        have hpairwise : sorted.Pairwise (fun a b => b.2 ≤ a.2) :=
          sortByKeyDesc_pairwise _ _
        have hcross : (words.count v : Nat) ≤ words.count w := by
          have hsplit := List.take_append_drop max_words sorted
          rw [← hsplit] at hpairwise
          have := (List.pairwise_append.mp hpairwise).2.2
          have h2 := this pw hpwtake (v, words.count v) hpvdrop
          rw [hpweq] at h2
          exact h2
        rcases Nat.lt_or_ge (words.count v) (words.count w) with hlt | hge
        · exact Or.inl hlt
        · have hcnteq : words.count v = words.count w := le_antisymm hcross hge
          refine Or.inr ⟨hcnteq, ?_⟩
          have hkwpair : keywords.Pairwise
              (fun a b => firstIdx words a < firstIdx words b) := by
            rw [hkw, hwords]
            unfold survivingKeywords
            exact dedupF_filter_pairwise_firstIdx _ _
          have hwfpair : word_freq.Pairwise
              (fun a b => firstIdx words a.1 < firstIdx words b.1) := by
            rw [hwf]
            refine List.pairwise_map.mpr ?_
            refine hkwpair.imp ?_
            intro a b h
            simpa using h
          have hstab := sortByKeyDesc_filter_key (fun p : PyStr × Nat => p.2)
            word_freq (words.count w)
          rw [← hsorted] at hstab
          have hfilterpair : (sorted.filter
              (fun p => decide (p.2 = words.count w))).Pairwise
              (fun a b => firstIdx words a.1 < firstIdx words b.1) := by
            rw [hstab]
            exact List.Pairwise.filter _ hwfpair
          have hsplit := List.take_append_drop max_words sorted
          rw [← hsplit, List.filter_append] at hfilterpair
          have hcrossidx := (List.pairwise_append.mp hfilterpair).2.2
          have hwmem : pw ∈ (sorted.take max_words).filter
              (fun p => decide (p.2 = words.count w)) := by
            refine List.mem_filter.mpr ⟨hpwtake, ?_⟩
            rw [hpweq]
            simp
          have hvmem : (v, words.count v) ∈ (sorted.drop max_words).filter
              (fun p => decide (p.2 = words.count w)) := by
            refine List.mem_filter.mpr ⟨hpvdrop, ?_⟩
            simp [hcnteq]
          have := hcrossidx pw hwmem (v, words.count v) hvmem
          rw [hpweq] at this
          exact this

/-- The witness text for C8: 21 distinct surviving keywords, each of
frequency one, so the 21st ("uuu") is dropped while "aaa" is kept. -/
def kwWitnessText : PyStr :=
  ("aaa bbb ccc ddd eee fff ggg hhh iii jjj kkk lll mmm nnn ooo ppp qqq rrr sss ttt uuu").toList

/-- Witness for C8: on `kwWitnessText` the bound holds and the kept
keyword "aaa" beats the dropped keyword "uuu". -/
theorem extract_keywords_bounded_and_most_frequent_witness :
    (extract_keywords kwWitnessText 3 20).length ≤ 20 ∧
      ((tokenizeWords kwWitnessText).count ("uuu").toList <
          (tokenizeWords kwWitnessText).count ("aaa").toList ∨
        ((tokenizeWords kwWitnessText).count ("uuu").toList =
            (tokenizeWords kwWitnessText).count ("aaa").toList ∧
          firstIdx (tokenizeWords kwWitnessText) ("aaa").toList <
            firstIdx (tokenizeWords kwWitnessText) ("uuu").toList)) :=
  ⟨(extract_keywords_bounded_and_most_frequent kwWitnessText 3 20).1,
   (extract_keywords_bounded_and_most_frequent kwWitnessText 3 20).2
     ("aaa").toList (by with_unfolding_all decide) ("uuu").toList
     (by with_unfolding_all decide) (by with_unfolding_all decide)⟩

end NewsAI
